import Mathlib

/-!
Shallow embedding of the one-shot / multi-shot channel exercise
(src/src/main.rs).  The implemented part of the source is `Recv::recv`,
a spin loop over a `Mutex<Option<T>>`; `new_chan`, `Send::send` and the
multi-shot operations are `unimplemented!()` in the source and are
modelled from the spec where a claim needs them, as marked below.

Modelling conventions:
* the mutex-guarded contents of a cell (`Mutex<Option<T>>`) is an
  `Option α`: `none` is the Empty slot, `some v` the Full slot;
* blocking is modelled with fuel: `recv fuel slot` returns `none` when
  the loop has not produced a value within `fuel` iterations;
* a successful `recv` returns the message, the slot contents it leaves
  behind, and the number of mutex acquisitions it performed (the loop
  locks the mutex exactly once per iteration);
* shared cells live in an allocation world `List (Repr α)`; a capability
  holds the index of its cell in that world.
-/

namespace OneShot

variable {α : Type}

/-- Representation of the one-shot channel in memory
(src/src/main.rs lines 204-206): a single field, the mutex-guarded
optional slot.  The struct has no condition-variable field. -/
structure Repr (α : Type) where
  val : Option α

/-- The capability held by the sender (src/src/main.rs lines 210-212):
an `Arc` reference to its `Repr` cell, modelled as the index of the cell
in the allocation world.  The payload type is a phantom parameter. -/
structure Send (α : Type) where
  repr : Nat

/-- The capability held by the receiver (src/src/main.rs lines 216-218):
an `Arc` reference to its `Repr` cell, modelled as the index of the cell
in the allocation world. -/
structure Recv (α : Type) where
  repr : Nat

/-- `Option::take` as called by `Recv::recv` (src/src/main.rs line 236):
returns the old contents and leaves `none` in the slot.  On a `none`
slot it writes `none` back, leaving the slot unchanged. -/
def take (x : Option α) : Option α × Option α :=
  (x, none)

/-- One iteration of the loop body of `Recv::recv` (src/src/main.rs
lines 232-244): take the slot's contents and match; `Some(msg)` returns
the message (`Sum.inl`), `None` drops the guard and spins around the
loop again with the slot contents left by `take` (`Sum.inr`). -/
def recvStep (slot : Option α) : Sum α (Option α) :=
  match take slot with
  | (some msg, _x) => Sum.inl msg
  | (none, x) => Sum.inr x

/-- `Recv::recv` (src/src/main.rs lines 230-246), fuel-bounded: run the
spin loop for at most `fuel` iterations.  `none` means the loop did not
return within `fuel` iterations (the thread is still spinning); a
successful result carries the received message, the slot contents left
in the cell, and the number of mutex acquisitions performed (the lock at
line 233 runs once per iteration). -/
def recv (fuel : Nat) (slot : Option α) : Option (α × Option α × Nat) :=
  match fuel with
  | 0 => none
  | f + 1 =>
    match recvStep slot with
    | Sum.inl msg => some (msg, none, 1)
    | Sum.inr x =>
      match recv f x with
      | none => none
      | some (v, s, n) => some (v, s, n + 1)

/-- Number of mutex acquisitions performed by the first `fuel`
iterations of `Recv::recv`'s loop (the `lock()` at src/src/main.rs line
233 runs exactly once per iteration, whether or not the iteration finds
a message). -/
def recvLockCount (fuel : Nat) (slot : Option α) : Nat :=
  match fuel with
  | 0 => 0
  | f + 1 =>
    match recvStep slot with
    | Sum.inl _ => 1
    | Sum.inr x => recvLockCount f x + 1

/-- The `self.repr.val.lock()` call at src/src/main.rs line 233, with
mutex poisoning made explicit: a poisoned mutex yields the error case
(`none`), which the `.unwrap()` at the same line turns into a panic;
otherwise the guard exposes the slot contents. -/
def lockMutex (poisoned : Bool) (slot : Option α) : Option (Option α) :=
  if poisoned then none else some slot

/-- `Recv::recv` with the `lock().unwrap()` of src/src/main.rs line 233
modelled explicitly: the outer `none` is a panic of `.unwrap()` on a
poisoned lock; `some r` is a panic-free run with `r` the fuel-bounded
result exactly as in `recv`. -/
def recvP (poisoned : Bool) (fuel : Nat) (slot : Option α) :
    Option (Option (α × Option α × Nat)) :=
  match fuel with
  | 0 => some none
  | f + 1 =>
    match lockMutex poisoned slot with
    | none => none
    | some x =>
      match recvStep x with
      | Sum.inl msg => some (some (msg, none, 1))
      | Sum.inr x2 =>
        match recvP poisoned f x2 with
        | none => none
        | some none => some none
        | some (some (v, s, n)) => some (some (v, s, n + 1))

/-- Modelled from the spec: the body of `new_chan` (src/src/main.rs
lines 222-224) is `unimplemented!()`.  Per spec §4.1 Construct, it
creates a fresh shared cell in the Empty state and returns exactly one
Sender and one Receiver bound to it, with no failure mode.  The fresh
cell is appended to the allocation world and both returned capabilities
carry its index. -/
def new_chan (world : List (Repr α)) : List (Repr α) × Send α × Recv α :=
  (world ++ [⟨none⟩], ⟨world.length⟩, ⟨world.length⟩)

/-- Modelled from the spec: the body of `Send::send` (src/src/main.rs
lines 250-254) is `unimplemented!()`.  Per spec §4.1 Sender.send, it
acquires the mutex, asserts the slot is Empty, writes `Full(value)`,
releases the mutex and wakes a waiter.  The result is the new slot
contents; `none` models the defensive assertion firing on a non-Empty
slot. -/
def send (slot : Option α) (msg : α) : Option (Option α) :=
  match slot with
  | none => some (some msg)
  | some _ => none

end OneShot

namespace MultiShot

variable {α : Type}

/-- Payload type carried by each underlying one-shot channel of the
multi-shot chain, as declared in the source (src/src/main.rs lines
294-299): a bare pair of the item and the next receiver capability.
There is no `Option` wrapper in the declared type. -/
def multiPayload (T R : Type) : Type := T × R

/-- Payload type the spec's words prescribe for the multi-shot chain
with close support: `Option<(item, next_receiver)>`, the absent case
marking end-of-stream. -/
def multiPayloadSpec (T R : Type) : Type := Option (T × R)

/-- Result type of `MultiRecv::recv` as declared in the source
(src/src/main.rs line 310): the bare pair `(T, MultiRecv<T>)`. -/
def multiRecvResult (T R : Type) : Type := T × R

/-- Result type the claim attributes to `MultiRecv::recv`: an `Option`
of the pair, whose `None` value signals end-of-stream. -/
def multiRecvResultSpec (T R : Type) : Type := Option (T × R)

/-- Modelled from the spec: the body of `MultiSend::send`
(src/src/main.rs lines 319-323) is `unimplemented!()`.  Per spec §4.2
Send — constrained to the payload type declared at lines 294-299, which
has no `Option` wrapper — it constructs a fresh underlying one-shot
channel via `new_chan`, sends the pair `(item, next_receiver)` through
the current channel (the cell at index `cur`), and returns the fresh
channel's sender as the next producer capability.  `none` models the
underlying one-shot send's defensive assertion firing (current cell not
Empty) or a dangling capability index. -/
def multiSend (world : List (OneShot.Repr (α × Nat))) (cur : Nat) (item : α) :
    Option (List (OneShot.Repr (α × Nat)) × Nat) :=
  match OneShot.new_chan world with
  | (world1, s2, r2) =>
    match world1.get? cur with
    | none => none
    | some cell =>
      match OneShot.send cell.val (item, r2.repr) with
      | none => none
      | some slot2 => some (world1.set cur ⟨slot2⟩, s2.repr)

/-- Modelled from the spec: the chain of one-shot cells left behind by a
producer that threads `MultiSend::send` (body `unimplemented!()` in the
source) over the values `vs`, the first cell having index `i`: cell
`i + k` holds the pair of the k-th value and the receiver capability for
cell `i + k + 1` (the next list position), deposited by the underlying
one-shot `send` into the fresh Empty cell. -/
def multiSendAll : Nat → List α → List (OneShot.Repr (α × Nat))
  | _, [] => []
  | i, v :: rest =>
    match OneShot.send none (v, i + 1) with
    | none => []
    | some slot => ⟨slot⟩ :: multiSendAll (i + 1) rest

/-- Modelled from the spec: a consumer looping `MultiRecv::recv` (body
`unimplemented!()` in the source) starting from receiver capability `i`:
each step performs the underlying, implemented one-shot `recv` on its
cell, keeps the item, and continues with the receiver capability
returned in the payload — which must point at the next cell, `i + 1`. -/
def multiRecvAll (fuel : Nat) : Nat → List (OneShot.Repr (α × Nat)) → List α
  | _, [] => []
  | i, c :: rest =>
    match OneShot.recv fuel c.val with
    | none => []
    | some ((v, next), _, _) =>
      if next = i + 1 then v :: multiRecvAll fuel next rest else []

end MultiShot

/-- On an Empty slot the recv spin loop never returns, for any amount of
fuel: each iteration takes `none`, writes `none` back and loops. -/
theorem recv_none_eq {α : Type} : ∀ f : Nat, OneShot.recv f (none : Option α) = none
  | 0 => rfl
  | f + 1 => by
    have ih := @recv_none_eq α f
    simp [OneShot.recv, OneShot.recvStep, OneShot.take, ih]

/-- Shared helper: a consumer that threads `multiRecvAll` over the chain
left by `multiSendAll` collects exactly the sent values, in order. -/
theorem multiRecvAll_multiSendAll {α : Type} (vs : List α) :
    ∀ i fuel : Nat, 1 ≤ fuel →
      MultiShot.multiRecvAll fuel i (MultiShot.multiSendAll i vs) = vs := by
  induction vs with
  | nil =>
    intro i fuel _
    rfl
  | cons v rest ih =>
    intro i fuel h
    obtain ⟨f, rfl⟩ : ∃ f, fuel = f + 1 := ⟨fuel - 1, by omega⟩
    simp [MultiShot.multiSendAll, MultiShot.multiRecvAll, OneShot.send,
      OneShot.recv, OneShot.recvStep, OneShot.take]
    exact ih (i + 1) (f + 1) (by omega)

/-- C1: on a freshly constructed one-shot channel, the slot is Empty;
sending `v` succeeds and deposits `Full v`; the implemented `recv` then
returns exactly `v` on its first iteration, leaving the slot Empty, and
no further recv on the emptied slot can ever yield a value again — the
value is received exactly once. -/
theorem oneShot_single_transfer (α : Type) (v : α) (fuel : Nat) (h : 1 ≤ fuel) :
    ∃ w s r slot, OneShot.new_chan ([] : List (OneShot.Repr α)) = (w, s, r) ∧
      w.get? s.repr = some ⟨slot⟩ ∧
      OneShot.send slot v = some (some v) ∧
      OneShot.recv fuel (some v) = some (v, none, 1) ∧
      ∀ f2, OneShot.recv f2 (none : Option α) = none := by
  obtain ⟨f, rfl⟩ : ∃ f, fuel = f + 1 := ⟨fuel - 1, by omega⟩
  exact ⟨_, _, _, none, rfl, rfl, rfl, rfl, fun f2 => recv_none_eq f2⟩

/-- C1 witness: the transfer of the concrete value 10 (the value used by
the source's own test) on a fresh channel with one unit of fuel. -/
theorem oneShot_single_transfer_inst :
    ∃ w s r slot, OneShot.new_chan ([] : List (OneShot.Repr Nat)) = (w, s, r) ∧
      w.get? s.repr = some ⟨slot⟩ ∧
      OneShot.send slot 10 = some (some 10) ∧
      OneShot.recv 1 (some 10) = some (10, none, 1) ∧
      ∀ f2, OneShot.recv f2 (none : Option Nat) = none :=
  @oneShot_single_transfer Nat 10 1 (by decide)

/-- C2: the source busy-waits.  On an Empty slot, `fuel` iterations of
`Recv::recv`'s loop acquire the mutex `fuel` times — one re-lock per
spin — and never return; the `None` arm merely drops the guard and runs
the loop again with the slot unchanged (`Sum.inr none`), and the `Repr`
struct has no condition variable to suspend on. -/
theorem recv_spin_loop_no_condvar (α : Type) (fuel : Nat) :
    OneShot.recv fuel (none : Option α) = none ∧
    OneShot.recvLockCount fuel (none : Option α) = fuel ∧
    OneShot.recvStep (none : Option α) = Sum.inr none := by
  refine ⟨recv_none_eq fuel, ?_, rfl⟩
  induction fuel with
  | zero => rfl
  | succ f ih => simp [OneShot.recvLockCount, OneShot.recvStep, OneShot.take, ih]

/-- C3: for every sequence of values sent in order by threading the
sender capability through `MultiSend::send`, a consumer looping
`MultiRecv::recv` and threading each returned receiver capability
observes exactly those values in the identical order. -/
theorem multiShot_ordering (α : Type) (vs : List α) (i fuel : Nat) (h : 1 ≤ fuel) :
    MultiShot.multiRecvAll fuel i (MultiShot.multiSendAll i vs) = vs :=
  multiRecvAll_multiSendAll vs i fuel h

/-- C3 witness: the sequence [3, 1, 2] is observed as [3, 1, 2]. -/
theorem multiShot_ordering_inst :
    MultiShot.multiRecvAll 1 0 (MultiShot.multiSendAll 0 [3, 1, 2]) = [3, 1, 2] :=
  @multiShot_ordering Nat [3, 1, 2] 0 1 (by decide)

/-- C4 counterexample: `MultiRecv::recv`'s declared result type is the
bare pair `(T, MultiRecv<T>)`, not an `Option`: instantiated at the
empty item type, the declared result type has no inhabitant at all while
the `Option` type the claim attributes to recv always has the inhabitant
`none`; hence recv's result can never be a `None` end-of-stream marker. -/
theorem multiRecv_result_not_option :
    IsEmpty (MultiShot.multiRecvResult Empty Unit) ∧
    Nonempty (MultiShot.multiRecvResultSpec Empty Unit) :=
  ⟨⟨fun p => p.1.elim⟩, ⟨(none : Option (Empty × Unit))⟩⟩

/-- C4 amended: the base code declares no close operation and no `None`
marker; after the producer sends the values `vs` and stops, a consumer
threading recv collects exactly `vs`, and its next recv — on a cell that
is never sent to — never returns: the spin loop exhausts any amount of
fuel without yielding anything, let alone an end-of-stream marker. -/
theorem multiShot_no_close_blocks (α : Type) (vs : List α) (i fuel : Nat)
    (h : 1 ≤ fuel) :
    MultiShot.multiRecvAll fuel i (MultiShot.multiSendAll i vs) = vs ∧
    ∀ f2, OneShot.recv f2 (none : Option (α × Nat)) = none :=
  ⟨multiRecvAll_multiSendAll vs i fuel h, fun f2 => recv_none_eq f2⟩

/-- C4 amended witness: after sending [4, 5], the consumer collects
[4, 5] and its next recv yields nothing for any fuel. -/
theorem multiShot_no_close_blocks_inst :
    MultiShot.multiRecvAll 1 0 (MultiShot.multiSendAll 0 [4, 5]) = [4, 5] ∧
    ∀ f2, OneShot.recv f2 (none : Option (Nat × Nat)) = none :=
  @multiShot_no_close_blocks Nat [4, 5] 0 1 (by decide)

/-- C5 counterexample: the payload type declared for the underlying
one-shot channels of the multi-shot chain is the bare pair
`(T, MultiRecv<T>)`, not the `Option`-wrapped pair the claim says is
transmitted: instantiated at the empty item type, the declared payload
type has no inhabitant while the claimed `Option` type has `none`; so no
value of the Some/None shape can travel through the declared channel. -/
theorem multiSend_payload_not_option :
    IsEmpty (MultiShot.multiPayload Empty Unit) ∧
    Nonempty (MultiShot.multiPayloadSpec Empty Unit) :=
  ⟨⟨fun p => p.1.elim⟩, ⟨(none : Option (Empty × Unit))⟩⟩

/-- C5 amended: `MultiSend::send` on a current cell that is Empty
allocates exactly one fresh Empty one-shot cell, deposits the bare pair
of the item and the next receiver capability (the fresh cell's index)
into the current cell via the one-shot send, and returns the fresh
cell's index as the next sender capability. -/
theorem multiSend_step_behavior (α : Type)
    (world : List (OneShot.Repr (α × Nat))) (cur : Nat) (item : α)
    (h : world.get? cur = some ⟨none⟩) :
    ∃ world2 next, MultiShot.multiSend world cur item = some (world2, next) ∧
      next = world.length ∧
      world2.get? next = some ⟨none⟩ ∧
      world2.get? cur = some ⟨some (item, world.length)⟩ ∧
      world2.length = world.length + 1 := by
  have hlt : cur < world.length := by
    by_contra hge
    rw [List.get?_eq_none.mpr (by omega)] at h
    exact Option.noConfusion h
  have h1 : (world ++ [(⟨none⟩ : OneShot.Repr (α × Nat))]).get? cur =
      some ⟨none⟩ := by
    rw [List.get?_append hlt]
    exact h
  refine ⟨(world ++ [(⟨none⟩ : OneShot.Repr (α × Nat))]).set cur
      (⟨some (item, world.length)⟩ : OneShot.Repr (α × Nat)),
    world.length, ?_, rfl, ?_, ?_, by simp⟩
  · simp only [MultiShot.multiSend, OneShot.new_chan, h1, OneShot.send]
  · rw [List.get?_set_ne _ _ (by omega)]
    exact List.get?_concat_length world ⟨none⟩
  · rw [List.get?_set_eq_of_lt]
    simp [List.length_append]
    omega

/-- C5 amended witness: a one-cell world with an Empty current cell;
sending 9 deposits the pair (9, 1) into cell 0, allocates fresh Empty
cell 1, and returns sender capability 1. -/
theorem multiSend_step_behavior_inst :
    ∃ world2 next,
      MultiShot.multiSend [(⟨none⟩ : OneShot.Repr (Nat × Nat))] 0 9 =
        some (world2, next) ∧
      next = [(⟨none⟩ : OneShot.Repr (Nat × Nat))].length ∧
      world2.get? next = some ⟨none⟩ ∧
      world2.get? 0 = some ⟨some (9, [(⟨none⟩ : OneShot.Repr (Nat × Nat))].length)⟩ ∧
      world2.length = [(⟨none⟩ : OneShot.Repr (Nat × Nat))].length + 1 :=
  @multiSend_step_behavior Nat [⟨none⟩] 0 9 rfl

/-- C6: the slot, being an `Option`, holds at most one value at any
time; whenever `recv` returns a value it found that exact value in the
slot (`Full v`), it left the slot Empty, and no recv on the emptied slot
can ever yield a value again — the deposited value is removed exactly
once. -/
theorem slot_removed_exactly_once (α : Type) (fuel : Nat) (s : Option α)
    (v : α) (s2 : Option α) (n : Nat)
    (h : OneShot.recv fuel s = some (v, s2, n)) :
    s = some v ∧ s2 = none ∧ (∀ f2, OneShot.recv f2 s2 = none) ∧
    ∀ c : OneShot.Repr α, c.val.toList.length ≤ 1 := by
  match fuel, s with
  | 0, s => exact Option.noConfusion h
  | f + 1, some w =>
    simp [OneShot.recv, OneShot.recvStep, OneShot.take] at h
    obtain ⟨hv, hs, _⟩ := h
    subst hv; subst hs
    refine ⟨rfl, rfl, fun f2 => recv_none_eq f2, fun c => ?_⟩
    cases hc : c.val <;> simp
  | f + 1, none =>
    rw [recv_none_eq (f + 1)] at h
    exact Option.noConfusion h

/-- C6 witness: recv with fuel 1 on the slot `Full 3` returns 3, having
found `some 3` and leaving the slot Empty. -/
theorem slot_removed_exactly_once_inst :
    (some 3 : Option Nat) = some 3 ∧ (none : Option Nat) = none ∧
    (∀ f2, OneShot.recv f2 (none : Option Nat) = none) ∧
    ∀ c : OneShot.Repr Nat, c.val.toList.length ≤ 1 :=
  @slot_removed_exactly_once Nat 1 (some 3) 3 none 1 rfl

/-- C7: `new_chan` appends exactly one fresh cell to the world, that
cell's slot is Empty, and the returned Sender and Receiver carry the
same index — both are bound to the one fresh cell; the construction is a
total function (no failure mode). -/
theorem new_chan_fresh_empty_pair (α : Type) (world : List (OneShot.Repr α)) :
    ∃ w s r, OneShot.new_chan world = (w, s, r) ∧
      s.repr = r.repr ∧ s.repr = world.length ∧
      w.get? s.repr = some ⟨none⟩ ∧
      w.length = world.length + 1 := by
  exact ⟨_, _, _, rfl, rfl, rfl, List.get?_concat_length world ⟨none⟩, by simp⟩

/-- C8: when the slot already holds `Full v`, recv returns on its very
first loop iteration: it acquires the mutex exactly once and yields `v`
with no waiting and no further iteration. -/
theorem recv_full_first_iteration (α : Type) (v : α) (fuel : Nat) (h : 1 ≤ fuel) :
    OneShot.recv fuel (some v) = some (v, none, 1) ∧
    OneShot.recvLockCount fuel (some v) = 1 := by
  obtain ⟨f, rfl⟩ : ∃ f, fuel = f + 1 := ⟨fuel - 1, by omega⟩
  exact ⟨rfl, rfl⟩

/-- C8 witness: a slot holding 7, one unit of fuel. -/
theorem recv_full_first_iteration_inst :
    OneShot.recv 1 (some 7) = some (7, none, 1) ∧
    OneShot.recvLockCount 1 (some (7 : Nat)) = 1 :=
  @recv_full_first_iteration Nat 7 1 (by decide)

/-- C9: `take` on a `None` slot writes `None` back, so a loop iteration
that observes the slot Empty continues with the cell unchanged
(`Sum.inr none`), and across any number of recv loop iterations an Empty
slot stays Empty and recv never deposits a value. -/
theorem recv_empty_frame (α : Type) :
    OneShot.take (none : Option α) = (none, none) ∧
    OneShot.recvStep (none : Option α) = Sum.inr none ∧
    ∀ fuel, OneShot.recv fuel (none : Option α) = none :=
  ⟨rfl, rfl, fun fuel => recv_none_eq fuel⟩

/-- C10: with the `lock().unwrap()` modelled explicitly, an unpoisoned
mutex never takes the error branch: for every fuel and slot, the run of
recv is panic-free and agrees exactly with the plain `recv` semantics. -/
theorem recv_no_panic_unpoisoned (α : Type) (poisoned : Bool) (fuel : Nat)
    (slot : Option α) (h : poisoned = false) :
    OneShot.recvP poisoned fuel slot = some (OneShot.recv fuel slot) := by
  subst h
  induction fuel generalizing slot with
  | zero => rfl
  | succ f ih =>
    cases slot with
    | some v => rfl
    | none =>
      have hf := ih none
      simp [OneShot.recvP, OneShot.recv, OneShot.recvStep, OneShot.take,
        OneShot.lockMutex, hf, recv_none_eq f]

/-- C10 witness: an unpoisoned run with fuel 2 on the slot `Full 5`. -/
theorem recv_no_panic_unpoisoned_inst :
    OneShot.recvP false 2 (some 5) = some (OneShot.recv 2 (some (5 : Nat))) :=
  @recv_no_panic_unpoisoned Nat false 2 (some 5) rfl
